import Mathlib

/-
Formal model of `src/app.py` (MLCONCRETEMIX): a Flask application that
downloads two model artifacts on startup if missing, lazily loads them into
two module-level cache variables, and serves a form handler that assembles a
thirteen-field input row, applies stored label encoders and a scaler, and
returns four rounded predictions.

Effectful Python constructs are embedded as explicit state passing:
the filesystem and HTTP outcomes are fields of a `World`, the two
module-level cache variables form a `CacheState`, and a raised exception is
an `Except.error`.
-/

-- ===========================================================================
-- Model of Python's built-in float() on plain decimal numerals.
-- (Exponents, inf/nan and underscore separators are omitted; the claims only
-- concern decimal numerals, which succeed, and non-numeric strings, which
-- raise ValueError, modelled as `none`.)
-- ===========================================================================

/-- Value of a decimal digit character, `none` on a non-digit. -/
def digitVal (c : Char) : Option Nat :=
  if c.isDigit then some (c.toNat - 48) else none

/-- Reads a nonempty run of decimal digits as a natural number; `none` if any
character is not a digit. An empty list yields `some 0` (callers guard
emptiness themselves). -/
def parseNatDigits (cs : List Char) : Option Nat :=
  cs.foldl
    (fun acc c =>
      match acc, digitVal c with
      | some n, some d => some (n * 10 + d)
      | _, _ => none)
    (some 0)

/-- Drops leading and trailing spaces, modelling the whitespace stripping
performed by Python's float(). -/
def stripSpaces (cs : List Char) : List Char :=
  ((cs.dropWhile (· = ' ')).reverse.dropWhile (· = ' ')).reverse

/-- Models Python's `float(s)` on decimal numerals: optional sign, integer
part, optional fractional part, at least one digit overall. Returns `none`
where Python raises `ValueError`. The value is exact (a rational), standing
in for the IEEE double Python would produce. -/
def parseFloat (s : String) : Option Rat :=
  let cs := stripSpaces s.toList
  let (neg, cs) :=
    match cs with
    | '-' :: rest => (true, rest)
    | '+' :: rest => (false, rest)
    | _ => (false, cs)
  let (ip, rest) := cs.span (·.isDigit)
  let mkVal (intN : Nat) (fracN : Nat) (fracLen : Nat) : Rat :=
    let mag : Rat := (intN : Rat) + (fracN : Rat) / ((10 ^ fracLen : Nat) : Rat)
    if neg then -mag else mag
  match rest with
  | [] =>
      if ip.isEmpty then none
      else (parseNatDigits ip).map (fun n => mkVal n 0 0)
  | '.' :: frac =>
      if frac.all (·.isDigit) && !(ip.isEmpty && frac.isEmpty) then
        match parseNatDigits ip, parseNatDigits frac with
        | some n, some f => some (mkVal n f frac.length)
        | _, _ => none
      else none
  | _ => none

-- ===========================================================================
-- Cell values and the single-row DataFrame `X_input` (src/app.py lines 82-96)
-- ===========================================================================

/-- A cell of the input row: Python floats/ints are modelled as exact
rationals, strings as strings. -/
inductive Value where
  | num (q : Rat)
  | str (s : String)
deriving DecidableEq, Repr

/-- The single-row DataFrame is a list of (column name, cell value) pairs in
insertion order. -/
abbrev Row := List (String × Value)

/-- Column lookup `X_input[col]`; `none` models a KeyError. -/
def rowGet (row : Row) (col : String) : Option Value :=
  (row.find? (fun p => p.1 == col)).map (fun p => p.2)

/-- Column assignment `X_input[col] = v` for a column already present. -/
def rowSet (row : Row) (col : String) (v : Value) : Row :=
  row.map (fun p => if p.1 == col then (p.1, v) else p)

/-- Models `.astype(str)` on a cell. The exact numeric rendering differs from
pandas formatting; no theorem depends on the rendering of numeric cells. -/
def pyStr : Value → String
  | .num q => toString q
  | .str s => s

/-- The thirteen-field input row built by the handler (src/app.py lines
82-96), in the dictionary's order: five values come from the request
(`fck`, `cement_type`, `max_size`, `agg_type`, `fine_zone`) and eight are
literal constants. -/
def build_input_row (fck : Rat) (cement_type : String) (max_size : Rat)
    (agg_type : String) (fine_zone : String) : Row :=
  [("Grade_fck", .num fck),
   ("Cement_Type", .str cement_type),
   ("Max_Aggregate_Size_mm", .num max_size),
   ("Aggregate_Type", .str agg_type),
   ("Fine_Agg_Zone", .str fine_zone),
   ("Exposure_Condition", .str "Severe"),
   ("Workability_Slump_mm", .num 75),
   ("Admixture_Type", .str "Superplasticizer"),
   ("Admixture_Dosage_%", .num 1.0),
   ("Mineral_Admixture_%", .num 0.0),
   ("w_c_ratio", .num 0.38),
   ("Factor_X", .num 1.65),
   ("Std_Deviation_S", .num 5.0)]

-- ===========================================================================
-- Opaque artifacts and the lazy cache (src/app.py lines 49-59)
-- ===========================================================================

/-- The deserialized model bundle: `predict` models
`model_bundle["model"].predict(X)[0]`, the prediction row for the single
input row. The artifact is opaque, so the function is arbitrary. -/
structure ModelInfo where
  predict : Row → List Rat

/-- The deserialized encoder bundle `enc_data`: the `encoders` dict as an
association list of label transforms (`none` models the exception a
LabelEncoder raises on an unseen label), the opaque `scaler.transform` on the
numeric columns taken jointly, and the `num_cols` list. -/
structure EncInfo where
  encoders : List (String × (String → Option Rat))
  scaler : List Rat → List Rat
  num_cols : List String

/-- The process environment seen by `joblib.load`: the outcome of loading
each artifact path. `Except.error` models the exception raised when the
artifact file is absent (FileNotFoundError) or unreadable. -/
structure Env where
  loadModel : Except String ModelInfo
  loadEnc : Except String EncInfo

/-- The two module-level cache variables `model_bundle` and `enc_data`
(src/app.py lines 49-50), both initially `None`. -/
structure CacheState where
  model_bundle : Option ModelInfo
  enc_data : Option EncInfo

/-- Models `ensure_model_loaded()` (src/app.py lines 52-59): if either cache
variable is `None`, both artifacts are deserialized and cached; otherwise the
cached pair is returned. The final `Nat` counts load events performed by this
call (each event deserializes both files). `Except.error` models the
unhandled exception `joblib.load` raises. -/
def ensure_model_loaded (env : Env) (st : CacheState) :
    Except String (CacheState × ModelInfo × EncInfo × Nat) :=
  match st.model_bundle, st.enc_data with
  | some mb, some ed => .ok (st, mb, ed, 0)
  | _, _ =>
    match env.loadModel with
    | .error e => .error e
    | .ok mb =>
      match env.loadEnc with
      | .error e => .error e
      | .ok ed => .ok ({ model_bundle := some mb, enc_data := some ed }, mb, ed, 1)

-- ===========================================================================
-- Artifact download (src/app.py lines 22-44)
-- ===========================================================================

/-- The outside world as seen by one `download_if_missing` call: the local
file state at `path` (`none` = absent), the outcome of
`requests.get(url, ...)` followed by `raise_for_status()` (`Except.error`
models a raised exception), whether the subsequent `open`/`write` fails, and
the file state such a failed write leaves behind. -/
structure World where
  file : Option (List Nat)
  fetch : Except String (List Nat)
  writeFails : Bool
  fileOnWriteFail : Option (List Nat)

/-- Observable effects of one `download_if_missing` call: how many HTTP
requests were issued, the resulting file state at `path`, and whether an
exception escaped the call. -/
structure DlResult where
  httpRequests : Nat
  fileAfter : Option (List Nat)
  raised : Bool
deriving DecidableEq, Repr

/-- The body of the `try` block (src/app.py lines 30-34): fetch, then write.
Returns the file state it leaves and the exception it raises, if any. A fetch
failure happens before `open`, so the file is untouched; a write failure
leaves whatever partial state the world says. -/
structure TryOutcome where
  fileLeft : Option (List Nat)
  exn : Option String

def try_download (w : World) : TryOutcome :=
  match w.fetch with
  | .error e => { fileLeft := w.file, exn := some e }
  | .ok content =>
    if w.writeFails then { fileLeft := w.fileOnWriteFail, exn := some "OSError" }
    else { fileLeft := some content, exn := none }

/-- Models `download_if_missing(url, path)` (src/app.py lines 22-38). With no
URL it only prints; with the file present it skips the download; otherwise it
makes one request inside a `try` whose `except Exception` clause swallows any
exception (hence `raised := false` in every branch). -/
def download_if_missing (url : Option String) (w : World) : DlResult :=
  match url with
  | none => { httpRequests := 0, fileAfter := w.file, raised := false }
  | some _ =>
    match w.file with
    | some c => { httpRequests := 0, fileAfter := some c, raised := false }
    | none =>
      { httpRequests := 1, fileAfter := (try_download w).fileLeft, raised := false }

/-- Module initialization (src/app.py lines 43-44): one `download_if_missing`
call per artifact, each against its own world. -/
def module_init (model_url enc_url : Option String) (wModel wEnc : World) :
    DlResult × DlResult :=
  (download_if_missing model_url wModel, download_if_missing enc_url wEnc)

-- ===========================================================================
-- The request handlers (src/app.py lines 64-121)
-- ===========================================================================

/-- A request form: `request.form.get` returns `none` for an absent field. -/
abbrev Form := String → Option String

/-- Models `request.form.get(key, dflt)` for a string-valued field. -/
def getFormStr (form : Form) (key : String) (dflt : String) : String :=
  (form key).getD dflt

/-- Models `float(request.form.get(key, dflt))` where `dflt` is a numeric
literal: an absent field yields the default (Python `float` of an int always
succeeds); a present field is parsed, and an unparseable one raises
`ValueError`, modelled as `Except.error`. -/
def getFormFloat (form : Form) (key : String) (dflt : Rat) : Except String Rat :=
  match form key with
  | none => .ok dflt
  | some s =>
    match parseFloat s with
    | some q => .ok q
    | none => .error ("ValueError: could not convert string to float: " ++ s)

/-- The encoding loop (src/app.py lines 99-100): for each entry of the
`encoders` dict in order, read the column (KeyError if absent), stringify,
transform (exception on an unseen label), and write the code back. -/
def applyEncoders (encoders : List (String × (String → Option Rat))) (row : Row) :
    Except String Row :=
  match encoders with
  | [] => .ok row
  | (col, le) :: rest =>
    match rowGet row col with
    | none => .error ("KeyError: " ++ col)
    | some v =>
      match le (pyStr v) with
      | none => .error ("ValueError: unseen label in column " ++ col)
      | some code => applyEncoders rest (rowSet row col (.num code))

/-- Reads the cells of the given columns as numbers, in order; `none` models
the exception raised when a column is absent or non-numeric. -/
def getNums (row : Row) (cols : List String) : Option (List Rat) :=
  match cols with
  | [] => some []
  | c :: cs =>
    match rowGet row c with
    | some (.num q) => (getNums row cs).map (fun vs => q :: vs)
    | _ => none

/-- Writes scaled values back into the given columns positionally. -/
def setNums (row : Row) (cols : List String) (vals : List Rat) : Row :=
  match cols, vals with
  | c :: cs, v :: vs => setNums (rowSet row c (.num v)) cs vs
  | _, _ => row

/-- Models `X_input[num_cols] = scaler.transform(X_input[num_cols])`
(src/app.py line 101): gather the numeric columns, transform them jointly,
and write the results back; a shape mismatch raises. -/
def applyScaler (scaler : List Rat → List Rat) (num_cols : List String) (row : Row) :
    Except String Row :=
  match getNums row num_cols with
  | none => .error "KeyError: num_cols not all present and numeric"
  | some vals =>
    let out := scaler vals
    if out.length = num_cols.length then .ok (setNums row num_cols out)
    else .error "ValueError: scaler output shape mismatch"

/-- Models Python's `round(x, 2)`. Python rounds ties to even on floats; the
tie-breaking convention is immaterial to every theorem below, which keep
`round2` symbolic. -/
def round2 (q : Rat) : Rat := ((round (q * 100) : ℤ) : Rat) / 100

/-- The value of `render_template("index.html", ...)`: the template name and
the `results` keyword argument, absent on a GET. -/
structure RenderedPage where
  template : String
  results : Option (List (String × Rat))
deriving DecidableEq, Repr

/-- Models the root-route handler `index()` (src/app.py lines 64-114). State
passing makes the cache update explicit; `Except.error` is an unhandled
exception escaping the handler. -/
def index (env : Env) (st : CacheState) (method : String) (form : Form) :
    Except String (CacheState × RenderedPage) :=
  if method = "POST" then
    match ensure_model_loaded env st with
    | .error e => .error e
    | .ok (st', mb, ed, _) =>
      match getFormFloat form "Grade_fck" 30 with
      | .error e => .error e
      | .ok fck =>
        let cement_type := getFormStr form "Cement_Type" "OPC43"
        let agg_type := getFormStr form "Aggregate_Type" "Crushed"
        match getFormFloat form "Max_Aggregate_Size_mm" 20 with
        | .error e => .error e
        | .ok max_size =>
          let fine_zone := getFormStr form "Fine_Agg_Zone" "II"
          let X_input := build_input_row fck cement_type max_size agg_type fine_zone
          match applyEncoders ed.encoders X_input with
          | .error e => .error e
          | .ok X1 =>
            match applyScaler ed.scaler ed.num_cols X1 with
            | .error e => .error e
            | .ok X2 =>
              match mb.predict X2 with
              | y0 :: y1 :: y2 :: y3 :: _ =>
                .ok (st',
                  { template := "index.html"
                    results := some
                      [("Cementitious_Content_kgm3", round2 y0),
                       ("Water_Content_kgm3", round2 y1),
                       ("Fine_Agg_kgm3", round2 y2),
                       ("Coarse_Agg_kgm3", round2 y3)] })
              | _ => .error "IndexError: y_pred has fewer than four entries"
  else
    .ok (st, { template := "index.html", results := none })

/-- Models the `/health` handler (src/app.py lines 119-121). The Python
function reads no state at all; the unused parameters record that the
response is independent of the environment and the cache. -/
def health (_env : Env) (_st : CacheState) : String × Nat := ("ok", 200)

-- ===========================================================================
-- Concrete instances used by the witnesses
-- ===========================================================================

/-- A concrete model bundle whose predictor returns four outputs. -/
def demoModel : ModelInfo := { predict := fun _ => [1, 2, 3, 4] }

/-- A concrete encoder bundle: one label encoder on `Cement_Type` whose
vocabulary is the single label "OPC43", an identity scaler and no numeric
columns. -/
def demoEnc : EncInfo :=
  { encoders := [("Cement_Type", fun s => if s = "OPC43" then some 7 else none)]
    scaler := fun v => v
    num_cols := [] }

/-- An environment in which both artifacts load successfully. -/
def demoEnv : Env := { loadModel := .ok demoModel, loadEnc := .ok demoEnc }

/-- An environment in which the model artifact file is absent, so
`joblib.load(MODEL_PATH)` raises. -/
def envNoModel : Env :=
  { loadModel := .error "FileNotFoundError: concrete_mix_model_checked.joblib"
    loadEnc := .ok demoEnc }

/-- A form carrying only `Grade_fck = "40"`. -/
def demoForm : Form := fun key => if key = "Grade_fck" then some "40" else none

/-- An empty form: every field is absent. -/
def emptyForm : Form := fun _ => none

/-- A form whose `Grade_fck` value is not parseable as a float. -/
def badForm : Form := fun key => if key = "Grade_fck" then some "abc" else none

/-- The encoded row for `demoForm` under `demoEnc`. -/
def demoRow1 : Row :=
  rowSet (build_input_row 40 "OPC43" 20 "Crushed" "II") "Cement_Type" (.num 7)

/-- The encoded row for `emptyForm` (all defaults) under `demoEnc`. -/
def demoRow9 : Row :=
  rowSet (build_input_row 30 "OPC43" 20 "Crushed" "II") "Cement_Type" (.num 7)

/-- A world in which the artifact file is already present. -/
def wExist : World :=
  { file := some [7], fetch := .ok [], writeFails := false, fileOnWriteFail := none }

-- ===========================================================================
-- Theorems
-- ===========================================================================

/-- C7: for every GET request to /health, the handler returns the fixed body
"ok" with HTTP status 200, independent of the environment (artifact files)
and of the cache state (whether the models are loaded). -/
theorem health_returns_ok_200 (env : Env) (st : CacheState) :
    health env st = ("ok", 200) := rfl

/-- C5: download_if_missing never propagates an exception: on every input the
call returns normally (`raised = false`), whatever the fetch and write
outcomes are. -/
theorem download_if_missing_never_raises (url : Option String) (w : World) :
    (download_if_missing url w).raised = false := by
  rcases url with _ | u <;> rcases hf : w.file with _ | c <;>
    simp [download_if_missing, hf]

/-- C8: every download_if_missing call performs at most one HTTP request (a
single unconditional attempt, no retry), and module initialization performs
at most one request per artifact. -/
theorem download_if_missing_single_attempt (url mu eu : Option String)
    (w wm we : World) :
    (download_if_missing url w).httpRequests ≤ 1 ∧
    (module_init mu eu wm we).1.httpRequests ≤ 1 ∧
    (module_init mu eu wm we).2.httpRequests ≤ 1 := by
  have key : ∀ (u : Option String) (w0 : World),
      (download_if_missing u w0).httpRequests ≤ 1 := by
    intro u w0
    rcases u with _ | u0 <;> rcases hf : w0.file with _ | c <;>
      simp [download_if_missing, hf]
  exact ⟨key url w, key mu wm, key eu we⟩

/-- C4: when a file already exists at the path, download_if_missing makes no
HTTP request and leaves the file unchanged; moreover a request is made only
when the file is absent and a URL is provided. -/
theorem download_if_missing_skips_existing (url : Option String) (w : World) :
    (∀ c, w.file = some c →
      download_if_missing url w =
        { httpRequests := 0, fileAfter := some c, raised := false }) ∧
    ((download_if_missing url w).httpRequests ≠ 0 → w.file = none ∧ url ≠ none) := by
  rcases url with _ | u <;> rcases hf : w.file with _ | c <;>
    simp [download_if_missing, hf]

/-- Witness for C4 at a concrete input: with the file already present
(content [7]) and a URL provided, no request is made and the file keeps its
content. -/
theorem download_if_missing_skips_existing_witness :
    download_if_missing (some "u") wExist =
      { httpRequests := 0, fileAfter := some [7], raised := false } :=
  (download_if_missing_skips_existing (some "u") wExist).1 [7] rfl

/-- C3: ensure_model_loaded is a lazy-initialization cache: after any call
that returns successfully, both cache variables hold the returned pair, and
calling it again on the resulting state returns the same state and the same
pair while performing zero load events. -/
theorem ensure_model_loaded_lazy_cache (env : Env) (st st' : CacheState)
    (mb : ModelInfo) (ed : EncInfo) (n : Nat)
    (h : ensure_model_loaded env st = .ok (st', mb, ed, n)) :
    st'.model_bundle = some mb ∧ st'.enc_data = some ed ∧
      ensure_model_loaded env st' = .ok (st', mb, ed, 0) := by
  have hcached : st'.model_bundle = some mb ∧ st'.enc_data = some ed := by
    rcases hm : st.model_bundle with _ | mb0 <;>
      rcases he : st.enc_data with _ | ed0 <;>
      rcases hl : env.loadModel with e | mb1 <;>
      rcases hle : env.loadEnc with e2 | ed1 <;>
      simp only [ensure_model_loaded, hm, he, hl, hle,
        Except.ok.injEq, Prod.mk.injEq, reduceCtorEq] at h <;>
      obtain ⟨h1, h2, h3, h4⟩ := h <;> subst h1 <;> simp_all
  refine ⟨hcached.1, hcached.2, ?_⟩
  simp only [ensure_model_loaded, hcached.1, hcached.2]

/-- Witness for C3 at a concrete input: loading from the empty cache caches
both bundles and a second call is a no-op returning the same pair. -/
theorem ensure_model_loaded_lazy_cache_witness :
    CacheState.model_bundle
        { model_bundle := some demoModel, enc_data := some demoEnc } =
        some demoModel ∧
      CacheState.enc_data
        { model_bundle := some demoModel, enc_data := some demoEnc } =
        some demoEnc ∧
      ensure_model_loaded demoEnv
        { model_bundle := some demoModel, enc_data := some demoEnc } =
        .ok ({ model_bundle := some demoModel, enc_data := some demoEnc },
          demoModel, demoEnc, 0) :=
  ensure_model_loaded_lazy_cache demoEnv { model_bundle := none, enc_data := none }
    { model_bundle := some demoModel, enc_data := some demoEnc }
    demoModel demoEnc 1 rfl

/-- C6: if loading either artifact fails (the file is absent when the first
POST arrives, so joblib.load raises), the root-route handler propagates the
load error unhandled. -/
theorem index_load_failure_unhandled (env : Env) (form : Form) (e : String)
    (h : env.loadModel = .error e ∨
      ∃ mb, env.loadModel = .ok mb ∧ env.loadEnc = .error e) :
    index env { model_bundle := none, enc_data := none } "POST" form =
      .error e := by
  rcases h with h | ⟨mb, h1, h2⟩
  · simp [index, ensure_model_loaded, h]
  · simp [index, ensure_model_loaded, h1, h2]

/-- Witness for C6 at a concrete input: with the model artifact absent, the
first POST surfaces the FileNotFoundError. -/
theorem index_load_failure_unhandled_witness :
    index envNoModel { model_bundle := none, enc_data := none } "POST" emptyForm =
      .error "FileNotFoundError: concrete_mix_model_checked.joblib" :=
  index_load_failure_unhandled envNoModel emptyForm
    "FileNotFoundError: concrete_mix_model_checked.joblib" (Or.inl rfl)

/-- C10: a POST whose Grade_fck form value is "abc" (not parseable as a
float) makes the handler raise an unhandled ValueError, whatever the model's
predictor is — the failure happens before any prediction is attempted and no
error page shields the caller. -/
theorem index_unparseable_grade_raises (p : Row → List Rat) :
    index { loadModel := .ok { predict := p }, loadEnc := .ok demoEnc }
      { model_bundle := none, enc_data := none } "POST" badForm =
      .error "ValueError: could not convert string to float: abc" := by
  with_unfolding_all rfl

/-- C2: the input row assembled by the handler has exactly thirteen fields in
the dictionary's order; the five user-supplied parameters appear with the
values passed in, and the remaining eight fields carry the hardcoded
constants of src/app.py lines 88-95, independent of the request. -/
theorem build_input_row_shape (fck : Rat) (cement_type : String) (max_size : Rat)
    (agg_type : String) (fine_zone : String) :
    (build_input_row fck cement_type max_size agg_type fine_zone).length = 13 ∧
    (build_input_row fck cement_type max_size agg_type fine_zone).map Prod.fst =
      ["Grade_fck", "Cement_Type", "Max_Aggregate_Size_mm", "Aggregate_Type",
       "Fine_Agg_Zone", "Exposure_Condition", "Workability_Slump_mm",
       "Admixture_Type", "Admixture_Dosage_%", "Mineral_Admixture_%",
       "w_c_ratio", "Factor_X", "Std_Deviation_S"] ∧
    rowGet (build_input_row fck cement_type max_size agg_type fine_zone)
      "Grade_fck" = some (.num fck) ∧
    rowGet (build_input_row fck cement_type max_size agg_type fine_zone)
      "Cement_Type" = some (.str cement_type) ∧
    rowGet (build_input_row fck cement_type max_size agg_type fine_zone)
      "Max_Aggregate_Size_mm" = some (.num max_size) ∧
    rowGet (build_input_row fck cement_type max_size agg_type fine_zone)
      "Aggregate_Type" = some (.str agg_type) ∧
    rowGet (build_input_row fck cement_type max_size agg_type fine_zone)
      "Fine_Agg_Zone" = some (.str fine_zone) ∧
    rowGet (build_input_row fck cement_type max_size agg_type fine_zone)
      "Exposure_Condition" = some (.str "Severe") ∧
    rowGet (build_input_row fck cement_type max_size agg_type fine_zone)
      "Workability_Slump_mm" = some (.num 75) ∧
    rowGet (build_input_row fck cement_type max_size agg_type fine_zone)
      "Admixture_Type" = some (.str "Superplasticizer") ∧
    rowGet (build_input_row fck cement_type max_size agg_type fine_zone)
      "Admixture_Dosage_%" = some (.num 1.0) ∧
    rowGet (build_input_row fck cement_type max_size agg_type fine_zone)
      "Mineral_Admixture_%" = some (.num 0.0) ∧
    rowGet (build_input_row fck cement_type max_size agg_type fine_zone)
      "w_c_ratio" = some (.num 0.38) ∧
    rowGet (build_input_row fck cement_type max_size agg_type fine_zone)
      "Factor_X" = some (.num 1.65) ∧
    rowGet (build_input_row fck cement_type max_size agg_type fine_zone)
      "Std_Deviation_S" = some (.num 5.0) := by
  repeat' apply And.intro
  all_goals with_unfolding_all rfl

/-- C1: on a POST whose form fields are valid — the two numeric fields parse
as floats, every encoder column is present with an in-vocabulary label, and
the loaded artifacts are shape-compatible — the handler returns the rendered
page whose results are exactly the four named predictions, each the model
output rounded to two decimal places. -/
theorem index_valid_form_four_predictions
    (env : Env) (st st' : CacheState) (mb : ModelInfo) (ed : EncInfo)
    (form : Form) (n : Nat) (fck max_size : Rat) (X1 X2 : Row)
    (y0 y1 y2 y3 : Rat) (rest : List Rat)
    (hload : ensure_model_loaded env st = .ok (st', mb, ed, n))
    (hfck : getFormFloat form "Grade_fck" 30 = .ok fck)
    (hmax : getFormFloat form "Max_Aggregate_Size_mm" 20 = .ok max_size)
    (henc : applyEncoders ed.encoders
        (build_input_row fck (getFormStr form "Cement_Type" "OPC43") max_size
          (getFormStr form "Aggregate_Type" "Crushed")
          (getFormStr form "Fine_Agg_Zone" "II")) = .ok X1)
    (hscale : applyScaler ed.scaler ed.num_cols X1 = .ok X2)
    (hpred : mb.predict X2 = y0 :: y1 :: y2 :: y3 :: rest) :
    index env st "POST" form =
      .ok (st',
        { template := "index.html"
          results := some
            [("Cementitious_Content_kgm3", round2 y0),
             ("Water_Content_kgm3", round2 y1),
             ("Fine_Agg_kgm3", round2 y2),
             ("Coarse_Agg_kgm3", round2 y3)] }) := by
  simp [index, hload, hfck, hmax, henc, hscale, hpred]

/-- Witness for C1 at a concrete input: a POST with Grade_fck "40" against a
concrete loadable environment yields the four rounded predictions. -/
theorem index_valid_form_four_predictions_witness :
    index demoEnv { model_bundle := none, enc_data := none } "POST" demoForm =
      .ok ({ model_bundle := some demoModel, enc_data := some demoEnc },
        { template := "index.html"
          results := some
            [("Cementitious_Content_kgm3", round2 1),
             ("Water_Content_kgm3", round2 2),
             ("Fine_Agg_kgm3", round2 3),
             ("Coarse_Agg_kgm3", round2 4)] }) :=
  index_valid_form_four_predictions demoEnv
    { model_bundle := none, enc_data := none }
    { model_bundle := some demoModel, enc_data := some demoEnc }
    demoModel demoEnc demoForm 1 40 20 demoRow1 demoRow1 1 2 3 4 []
    (by with_unfolding_all rfl)
    (by with_unfolding_all rfl)
    (by with_unfolding_all rfl)
    (by with_unfolding_all rfl)
    (by with_unfolding_all rfl)
    (by with_unfolding_all rfl)

/-- C9: an absent form field never fails; each of the five user-supplied
fields falls back to its hardcoded default (Grade_fck 30, Cement_Type
"OPC43", Aggregate_Type "Crushed", Max_Aggregate_Size_mm 20, Fine_Agg_Zone
"II"), and a POST with an entirely empty form still produces the four
predictions, computed on the all-defaults row. -/
theorem index_empty_form_uses_defaults
    (env : Env) (st st' : CacheState) (mb : ModelInfo) (ed : EncInfo) (n : Nat)
    (X1 X2 : Row) (y0 y1 y2 y3 : Rat) (rest : List Rat)
    (hload : ensure_model_loaded env st = .ok (st', mb, ed, n))
    (henc : applyEncoders ed.encoders
        (build_input_row 30 "OPC43" 20 "Crushed" "II") = .ok X1)
    (hscale : applyScaler ed.scaler ed.num_cols X1 = .ok X2)
    (hpred : mb.predict X2 = y0 :: y1 :: y2 :: y3 :: rest) :
    (∀ form : Form, form "Grade_fck" = none →
      getFormFloat form "Grade_fck" 30 = .ok 30) ∧
    (∀ form : Form, form "Cement_Type" = none →
      getFormStr form "Cement_Type" "OPC43" = "OPC43") ∧
    (∀ form : Form, form "Aggregate_Type" = none →
      getFormStr form "Aggregate_Type" "Crushed" = "Crushed") ∧
    (∀ form : Form, form "Max_Aggregate_Size_mm" = none →
      getFormFloat form "Max_Aggregate_Size_mm" 20 = .ok 20) ∧
    (∀ form : Form, form "Fine_Agg_Zone" = none →
      getFormStr form "Fine_Agg_Zone" "II" = "II") ∧
    index env st "POST" emptyForm =
      .ok (st',
        { template := "index.html"
          results := some
            [("Cementitious_Content_kgm3", round2 y0),
             ("Water_Content_kgm3", round2 y1),
             ("Fine_Agg_kgm3", round2 y2),
             ("Coarse_Agg_kgm3", round2 y3)] }) := by
  refine ⟨?_, ?_, ?_, ?_, ?_, ?_⟩
  · intro form hf; simp [getFormFloat, hf]
  · intro form hf; simp [getFormStr, hf]
  · intro form hf; simp [getFormStr, hf]
  · intro form hf; simp [getFormFloat, hf]
  · intro form hf; simp [getFormStr, hf]
  · simp [index, hload, henc, hscale, hpred, emptyForm, getFormFloat, getFormStr]

/-- Witness for C9 at a concrete input: a POST with the empty form against a
concrete loadable environment yields the four rounded predictions from the
all-defaults row. -/
theorem index_empty_form_uses_defaults_witness :
    index demoEnv { model_bundle := none, enc_data := none } "POST" emptyForm =
      .ok ({ model_bundle := some demoModel, enc_data := some demoEnc },
        { template := "index.html"
          results := some
            [("Cementitious_Content_kgm3", round2 1),
             ("Water_Content_kgm3", round2 2),
             ("Fine_Agg_kgm3", round2 3),
             ("Coarse_Agg_kgm3", round2 4)] }) :=
  (index_empty_form_uses_defaults demoEnv
    { model_bundle := none, enc_data := none }
    { model_bundle := some demoModel, enc_data := some demoEnc }
    demoModel demoEnc 1 demoRow9 demoRow9 1 2 3 4 []
    (by with_unfolding_all rfl)
    (by with_unfolding_all rfl)
    (by with_unfolding_all rfl)
    (by with_unfolding_all rfl)).2.2.2.2.2
